import Mathlib

/-!
# Verification of the usvisa-web per-job scheduler engine

Shallow embedding of the scheduling/session engine of this repository.
The repository contains two near-duplicate engines:

* `src/scheduler-engine.js` — the Puppeteer-based engine required by every
  caller (`job-manager.js`, `server.js`, `agent/agent.js`); definitions
  embedding it carry the suffix `P`;
* `src/unnamed/part_000` — a fetch/cookie-jar based variant of the same
  class; definitions embedding it carry the suffix `F`.

Conventions of the embedding:

* JavaScript strings stay `String`; `s.includes(pat)` becomes `containsStr`.
* Calendar dates are modelled by their position on the timeline (`Nat`).
  The target endpoint delivers ISO `YYYY-MM-DD` strings, for which the
  JavaScript lexicographic `sort()` and the chronological order produced by
  `new Date(...)` comparison coincide, so a single `Nat` order is faithful.
* Wall-clock side effects (sleeps) are recorded as a list of `SleepEv`
  values naming the call site; durations with a random component record the
  site, deterministic durations are recovered by `SleepEv.baseMs`.
* Network nondeterminism (fetch results, login outcomes, the `running`
  flag set by a concurrent `stop()`) is supplied as an explicit event
  trace; a run that consumes the trace past its end evaluates to `none`.
* External best-effort side channels (`db.addLog`, `db.updateJob`,
  `db.cacheLocations`, `syncHealth`) do not feed back into the engine's
  control flow and are not modelled.
-/

/-- Substring occurrence on the underlying character lists. -/
def listContainsSub : List Char → List Char → Bool
  | [], pat => pat.isEmpty
  | c :: rest, pat => pat.isPrefixOf (c :: rest) || listContainsSub rest pat

/-- JavaScript `hay.includes(pat)`. -/
def containsStr (hay pat : String) : Bool :=
  listContainsSub hay.data pat.data

/-- JavaScript `s.toLowerCase()` (`html.toLowerCase()` in both engines). -/
def strLower (s : String) : String :=
  { data := s.data.map Char.toLower }

/-- The result object produced by `bookAppointment` in both engines
(`src/scheduler-engine.js:953-964`, `src/unnamed/part_000:449-461`).
The `date`/`time`/`facilityId` fields of the JS object are pass-through
copies of the arguments and carry no information, so they are omitted. -/
structure BookingResult where
  success : Bool
  verified : Bool
  reason : Option String
deriving DecidableEq, Repr

/-- The three confirmation substrings checked (on the lowercased body) by
both engines (`src/scheduler-engine.js:926`, `src/unnamed/part_000:423`). -/
def hasConfirmText (lower : String) : Bool :=
  containsStr lower "successfully scheduled" ||
  containsStr lower "successfully booked" ||
  containsStr lower "your appointment has been scheduled"

/-- The extra confirmation check of the Puppeteer engine only
(`src/scheduler-engine.js:931`): having landed on the instructions page
also counts as confirmed.  JS `A || B && C` parses as `A || (B && C)`. -/
def instructionsCheckP (lower url : String) : Bool :=
  containsStr url "/instructions" ||
  (containsStr lower "instructions" && containsStr lower "your appointment")

/-- Failure-reason classification of the Puppeteer engine
(`src/scheduler-engine.js:935-951`): first if/else chain, then the
fallback that re-tests for the booking form. -/
def failReasonP (lower url : String) : Option String :=
  let first :=
    if containsStr lower "no longer available" ||
       containsStr lower "no appointment available" then
      some "Slot no longer available"
    else if containsStr lower "there was a problem" ||
            containsStr lower "could not be processed" then
      some "Server problem processing booking"
    else if containsStr lower "sign_in" then
      some "Session expired during booking"
    else if containsStr lower "appointments[consulate_appointment][facility_id]" &&
            containsStr url "/appointment" then
      some "Still on appointment form (booking not processed)"
    else none
  match first with
  | some r => some r
  | none =>
    if containsStr lower "appointments[consulate_appointment][facility_id]" ||
       containsStr lower "reschedule appointment" then
      some "Still on appointment form (booking not processed)"
    else none

/-- Step 6 of `bookAppointment` in the Puppeteer engine
(`src/scheduler-engine.js:919-964`): classify the final page content and
URL into a `BookingResult`. -/
def classifyBookingP (html url : String) : BookingResult :=
  let lower := strLower html
  let confirmed := hasConfirmText lower || instructionsCheckP lower url
  if confirmed then
    { success := true, verified := true, reason := none }
  else
    match failReasonP lower url with
    | some r => { success := false, verified := false, reason := some r }
    | none => { success := false, verified := false, reason := some "Ambiguous response" }

/-- Environment of one Puppeteer `bookAppointment` call: what the engine
observes from the browser before and after submitting the form. -/
structure PupBookEnv where
  /-- the page URL after navigating to the appointment page contains
  `sign_in` (`src/scheduler-engine.js:813-816`) -/
  navSignIn : Bool
  /-- the facility dropdown appeared within the timeout
  (`src/scheduler-engine.js:819-823`) -/
  formLoaded : Bool
  /-- final page content after submit -/
  html : String
  /-- final page URL after submit -/
  finalUrl : String
deriving DecidableEq, Repr

/-- `bookAppointment` of the Puppeteer engine as a function from its
observed environment to the returned `BookingResult`
(`src/scheduler-engine.js:799-965`; throwing paths excluded — they yield
no result object). -/
def bookAppointmentP (e : PupBookEnv) : BookingResult :=
  if e.navSignIn then
    { success := false, verified := false, reason := some "Session expired during booking" }
  else if !e.formLoaded then
    { success := false, verified := false, reason := some "Appointment form not loaded" }
  else classifyBookingP e.html e.finalUrl

/-- Response observed by the fetch-variant `bookAppointment`
(`src/unnamed/part_000:417`): body text, HTTP status, and `resp.ok`. -/
structure FetchBookResp where
  html : String
  status : Nat
  ok : Bool
deriving DecidableEq, Repr

/-- Failure-reason classification of the fetch variant
(`src/unnamed/part_000:427-447`), including the HTTP-status branches the
Puppeteer engine does not have. -/
def failReasonF (lower : String) (status : Nat) (ok : Bool) : Option String :=
  let first :=
    if containsStr lower "no longer available" ||
       containsStr lower "no appointment available" then
      some "Slot no longer available"
    else if containsStr lower "there was a problem" ||
            containsStr lower "could not be processed" then
      some "Server problem processing booking"
    else if containsStr lower "sign_in" then
      some "Session expired during booking"
    else if status == 422 then
      some "CSRF token expired"
    else if status == 401 || status == 403 then
      some ("Session expired (" ++ toString status ++ ")")
    else if !ok then
      some ("HTTP error " ++ toString status)
    else none
  match first with
  | some r => some r
  | none =>
    if containsStr lower "appointments[consulate_appointment][facility_id]" ||
       containsStr lower "reschedule appointment" then
      some "Still on appointment form (booking not processed)"
    else none

/-- `bookAppointment` of the fetch variant (`src/unnamed/part_000:384-461`)
as a function of the booking POST response (the CSRF-refresh preamble
either succeeds silently or throws, producing no result object). -/
def bookAppointmentF (resp : FetchBookResp) : BookingResult :=
  let lower := strLower resp.html
  let confirmed := hasConfirmText lower
  if confirmed then
    { success := true, verified := true, reason := none }
  else
    match failReasonF lower resp.status resp.ok with
    | some r => { success := false, verified := false, reason := some r }
    | none => { success := false, verified := false, reason := some "Ambiguous response" }

/-! ## Date filtering (`filterDatesInRange`)

Identical in both engines (`src/scheduler-engine.js:970-981`,
`src/unnamed/part_000:466-477`). -/

/-- One entry of the per-facility open-days JSON: `{date, business_day}`.
The date is modelled by its timeline position (see file header). -/
structure AvailDate where
  date : Nat
  business_day : Bool
deriving DecidableEq, Repr

/-- `filterDatesInRange(dates)`: keep business days, project the date,
keep dates inside the inclusive `[startDate, endDate]` window, sort
ascending (JS `Array.sort`, modelled by insertion sort). -/
def filterDatesInRange (startDate endDate : Nat) (dates : List AvailDate) : List Nat :=
  ((((dates.filter fun d => d.business_day).map fun d => d.date).filter
      fun d => decide (startDate ≤ d ∧ d ≤ endDate)).insertionSort (· ≤ ·))

example : filterDatesInRange 10 20 [⟨15, true⟩, ⟨12, false⟩, ⟨25, true⟩, ⟨10, true⟩] = [10, 15] := by decide
example : filterDatesInRange 10 20 [⟨20, true⟩] = [20] := by decide

/-! ## The check cycle (`runCheckCycle`)

`src/scheduler-engine.js:986-1148` (Puppeteer) and
`src/unnamed/part_000:482-616` (fetch variant). -/

/-- `CycleOutcome`: the contract between `runCheckCycle` and `_runLoop`. -/
inductive Outcome
  | CONTINUE | STOPPED | BOOKED | LOGIN_FAILED | IP_BLOCKED
deriving DecidableEq, Repr

/-- In-memory health stats of a `SchedulerInstance`
(`src/scheduler-engine.js:160-169`).  The wall-clock fields `lastCheckAt`
and `startedAt` are timestamps with no influence on control flow and are
not modelled. -/
structure Health where
  totalChecks : Nat
  successfulChecks : Nat
  failedChecks : Nat
  consecutiveFailures : Nat
  reloginCount : Nat
  lastError : Option String
deriving DecidableEq, Repr

/-- The sleep call sites of `runCheckCycle`, named so that sleeps with a
random component record the site rather than a fabricated duration. -/
inductive SleepEv
  /-- `100 + Math.random()*30` ms between facilities (Puppeteer engine,
  `src/scheduler-engine.js:1013-1017`) -/
  | interFacilityPause
  /-- `5 * 60 * 1000` ms after `RATE_LIMITED` (Puppeteer engine,
  `src/scheduler-engine.js:1124-1126`) -/
  | rateLimitPause
  /-- `60000` ms after `RATE_LIMITED` (fetch variant,
  `src/unnamed/part_000:591-593`) -/
  | rateLimitPauseF
  /-- `8000 + Math.random()*4000` ms after an exhausted socket failure
  (Puppeteer engine, `src/scheduler-engine.js:1106-1108`) -/
  | socketPause
  /-- `500` ms between booking attempts (both engines) -/
  | bookAttemptPause
deriving DecidableEq, Repr

/-- Deterministic part of each sleep duration, in milliseconds. -/
def SleepEv.baseMs : SleepEv → Nat
  | .interFacilityPause => 100
  | .rateLimitPause => 5 * 60 * 1000
  | .rateLimitPauseF => 60000
  | .socketPause => 8000
  | .bookAttemptPause => 500

/-- The slice of the per-job config that `runCheckCycle` reads
(`src/scheduler-engine.js:1168-1182`).  Only the length and order of
`facilityIds` matter to control flow. -/
structure JobConfig where
  facilityIds : List Nat
  startDate : Nat
  endDate : Nat
  autoBook : Bool
deriving DecidableEq, Repr

/-- Cycle-local mutable variables of `runCheckCycle`
(`src/scheduler-engine.js:991-993`): `anySuccess`, `socketFailCount`
(Puppeteer engine only) and `lastError`. -/
structure Ctx where
  anySuccess : Bool
  socketFailCount : Nat
  lastErr : Option String
deriving DecidableEq, Repr

/-- `result.reason && result.reason.includes('Session expired')`
(`src/scheduler-engine.js:1065`). -/
def reasonMentionsSessionExpired (r : BookingResult) : Bool :=
  match r.reason with
  | some s => containsStr s "Session expired"
  | none => false

/-- One observed step of the auto-book attempt loop
(`src/scheduler-engine.js:1032-1077`): what the environment answers to the
running-flag check, `checkTimes` and `bookAppointment` of one attempt.
`reloginOk` tells whether an attempted re-login succeeded. -/
inductive BookEvent
  /-- `this.running` observed false at the start of the attempt -/
  | stopHere
  /-- `checkTimes` returned an empty list: break to the next date -/
  | noTimes
  /-- `checkTimes` threw; `isSessionExpired` = the message was
  `SESSION_EXPIRED`, in which case a re-login is attempted -/
  | timesThrew (isSessionExpired : Bool) (reloginOk : Bool)
  /-- `bookAppointment` threw -/
  | bookThrew (isSessionExpired : Bool) (reloginOk : Bool)
  /-- `bookAppointment` returned `r`; a re-login is attempted when the
  reason mentions session expiry -/
  | result (r : BookingResult) (reloginOk : Bool)
deriving DecidableEq, Repr

/-- Result of the attempt loop for one date. -/
inductive DateRes
  | dBooked | dStopped | dateDone
deriving DecidableEq, Repr

/-- Result of the whole auto-book block for one facility. -/
inductive BookPhase
  | booked | stoppedB | notBooked
deriving DecidableEq, Repr

/-- `login()` increments `health.reloginCount` on success
(`src/scheduler-engine.js:477`); a thrown login failure is swallowed by
the booking loop's catch. -/
def applyRelogin (ok : Bool) (h : Health) : Health :=
  if ok then { h with reloginCount := h.reloginCount + 1 } else h

/-- Prepend sleeps to the sleep log of an attempt-loop result. -/
def withSleepsA (sl : List SleepEv) :
    Option (DateRes × Health × List SleepEv × List BookEvent) →
    Option (DateRes × Health × List SleepEv × List BookEvent)
  | none => none
  | some (r, h, sl', evs) => some (r, h, sl ++ sl', evs)

/-- The inner `for (attempt = 1; attempt <= 3 && !booked; attempt++)` loop
for one target date (`src/scheduler-engine.js:1032-1077`).  Each attempt
consumes one `BookEvent`; `none` means the event trace was too short. -/
def bookAttemptsGo : List BookEvent → Nat → Health →
    Option (DateRes × Health × List SleepEv × List BookEvent)
  | [], attempt, h =>
    if attempt > 3 then some (.dateDone, h, [], []) else none
  | ev :: rest, attempt, h =>
    if attempt > 3 then some (.dateDone, h, [], ev :: rest)
    else
      let pause : List SleepEv := if attempt < 3 then [SleepEv.bookAttemptPause] else []
      match ev with
      | .stopHere => some (.dStopped, h, [], rest)
      | .noTimes => some (.dateDone, h, [], rest)
      | .timesThrew se ok =>
        let h' := if se then applyRelogin ok h else h
        withSleepsA pause (bookAttemptsGo rest (attempt + 1) h')
      | .bookThrew se ok =>
        let h' := if se then applyRelogin ok h else h
        withSleepsA pause (bookAttemptsGo rest (attempt + 1) h')
      | .result r ok =>
        if r.success && r.verified then some (.dBooked, h, [], rest)
        else
          let h' := if reasonMentionsSessionExpired r then applyRelogin ok h else h
          withSleepsA pause (bookAttemptsGo rest (attempt + 1) h')

/-- The outer `for (d = 0; d < Math.min(matching.length, 3) && !booked; d++)`
loop (`src/scheduler-engine.js:1030-1078`); the caller passes
`matching.take 3`. -/
def bookDatesGo : List Nat → Health → List BookEvent →
    Option (BookPhase × Health × List SleepEv × List BookEvent)
  | [], h, evs => some (.notBooked, h, [], evs)
  | _d :: ds, h, evs =>
    match bookAttemptsGo evs 1 h with
    | none => none
    | some (.dBooked, h', sl, evs') => some (.booked, h', sl, evs')
    | some (.dStopped, h', sl, evs') => some (.stoppedB, h', sl, evs')
    | some (.dateDone, h', sl, evs') =>
      match bookDatesGo ds h' evs' with
      | none => none
      | some (p, h'', sl', evs'') => some (p, h'', sl ++ sl', evs'')

/-- One observed iteration of the facility loop: the running-flag check
and the outcome of `checkDates` for the current facility. -/
inductive FacEvent
  /-- `this.running` observed false at the top of the iteration -/
  | stopped
  /-- `checkDates` returned `dates`; `book` scripts the auto-book block -/
  | ok (dates : List AvailDate) (book : List BookEvent)
  /-- an error with `_isSocketError && _retriesExhausted` (message `msg`) -/
  | errSocket (msg : String)
  /-- `SESSION_EXPIRED`; `reloginOk` = whether the re-login succeeded -/
  | errSessionExpired (reloginOk : Bool)
  | errRateLimited
  | errCsrfExpired
  /-- any other thrown error, with its message -/
  | errOther (msg : String)
deriving DecidableEq, Repr

/-- The inter-facility pause of the Puppeteer engine: skipped for the
first facility (`src/scheduler-engine.js:1013`). -/
def pausePre (i : Nat) : List SleepEv :=
  if i = 0 then [] else [SleepEv.interFacilityPause]

/-- Prepend sleeps to the sleep log of a cycle result. -/
def withSleeps (sl : List SleepEv) :
    Option (Outcome × Health × List SleepEv) → Option (Outcome × Health × List SleepEv)
  | none => none
  | some (o, h, sl') => some (o, h, sl ++ sl')

/-- Health accounting after the facility loop ran to completion
(`src/scheduler-engine.js:1134-1141`). -/
def finalizeHealth (ctx : Ctx) (h : Health) : Health :=
  if ctx.anySuccess then
    { h with successfulChecks := h.successfulChecks + 1, consecutiveFailures := 0 }
  else
    { h with failedChecks := h.failedChecks + 1,
             consecutiveFailures := h.consecutiveFailures + 1,
             lastError := ctx.lastErr }

/-- The facility loop of the Puppeteer `runCheckCycle`
(`src/scheduler-engine.js:1006-1147`).  Each iteration consumes one
`FacEvent`; on `SESSION_EXPIRED` with a successful re-login the index is
not advanced (`i--; continue`), so the next event describes the retried
facility. -/
def facLoopP (cfg : JobConfig) : List FacEvent → Health → Ctx → Nat →
    Option (Outcome × Health × List SleepEv)
  | [], h, ctx, i =>
    if i < cfg.facilityIds.length then none
    else some (.CONTINUE, finalizeHealth ctx h, [])
  | ev :: rest, h, ctx, i =>
    if i < cfg.facilityIds.length then
      match ev with
      | .stopped => some (.STOPPED, h, [])
      | .ok dates book =>
        let ctx' : Ctx := { anySuccess := true, socketFailCount := 0, lastErr := ctx.lastErr }
        let matching := filterDatesInRange cfg.startDate cfg.endDate dates
        if matching ≠ [] ∧ cfg.autoBook then
          match bookDatesGo (matching.take 3) h book with
          | none => none
          | some (.booked, h', sl, _) => some (.BOOKED, h', pausePre i ++ sl)
          | some (.stoppedB, h', sl, _) => some (.STOPPED, h', pausePre i ++ sl)
          | some (.notBooked, h', sl, _) =>
            withSleeps (pausePre i ++ sl) (facLoopP cfg rest h' ctx' (i + 1))
        else withSleeps (pausePre i) (facLoopP cfg rest h ctx' (i + 1))
      | .errSocket msg =>
        let ctx' : Ctx := { ctx with socketFailCount := ctx.socketFailCount + 1,
                                     lastErr := some msg }
        if ctx'.socketFailCount ≥ cfg.facilityIds.length then
          some (.IP_BLOCKED,
            { h with failedChecks := h.failedChecks + 1,
                     consecutiveFailures := h.consecutiveFailures + 1,
                     lastError := some "IP_BLOCKED" },
            pausePre i)
        else
          withSleeps (pausePre i ++ [SleepEv.socketPause]) (facLoopP cfg rest h ctx' (i + 1))
      | .errSessionExpired reloginOk =>
        let ctx' : Ctx := { ctx with lastErr := some "SESSION_EXPIRED" }
        if reloginOk then
          withSleeps (pausePre i)
            (facLoopP cfg rest { h with reloginCount := h.reloginCount + 1 } ctx' i)
        else some (.LOGIN_FAILED, h, pausePre i)
      | .errRateLimited =>
        withSleeps (pausePre i ++ [SleepEv.rateLimitPause])
          (facLoopP cfg rest h { ctx with lastErr := some "RATE_LIMITED" } (i + 1))
      | .errCsrfExpired =>
        withSleeps (pausePre i)
          (facLoopP cfg rest h { ctx with lastErr := some "CSRF_EXPIRED" } (i + 1))
      | .errOther msg =>
        withSleeps (pausePre i)
          (facLoopP cfg rest h { ctx with lastErr := some msg } (i + 1))
    else some (.CONTINUE, finalizeHealth ctx h, [])

/-- `runCheckCycle()` of the Puppeteer engine
(`src/scheduler-engine.js:986-1148`).  `running0` is the value of
`this.running` observed on entry. -/
def runCheckCycleP (running0 : Bool) (cfg : JobConfig) (h : Health)
    (evs : List FacEvent) : Option (Outcome × Health × List SleepEv) :=
  if !running0 then some (.STOPPED, h, [])
  else
    let h1 := { h with totalChecks := h.totalChecks + 1 }
    if cfg.facilityIds.length = 0 then some (.CONTINUE, h1, [])
    else facLoopP cfg evs h1 { anySuccess := false, socketFailCount := 0, lastErr := none } 0

/-- The facility loop of the fetch-variant `runCheckCycle`
(`src/unnamed/part_000:501-599`): no inter-facility pause, no
socket-failure branch (such errors fall through to the generic handler),
and a 60-second rate-limit pause. -/
def facLoopF (cfg : JobConfig) : List FacEvent → Health → Ctx → Nat →
    Option (Outcome × Health × List SleepEv)
  | [], h, ctx, i =>
    if i < cfg.facilityIds.length then none
    else some (.CONTINUE, finalizeHealth ctx h, [])
  | ev :: rest, h, ctx, i =>
    if i < cfg.facilityIds.length then
      match ev with
      | .stopped => some (.STOPPED, h, [])
      | .ok dates book =>
        let ctx' : Ctx := { anySuccess := true, socketFailCount := ctx.socketFailCount,
                            lastErr := ctx.lastErr }
        let matching := filterDatesInRange cfg.startDate cfg.endDate dates
        if matching ≠ [] ∧ cfg.autoBook then
          match bookDatesGo (matching.take 3) h book with
          | none => none
          | some (.booked, h', sl, _) => some (.BOOKED, h', sl)
          | some (.stoppedB, h', sl, _) => some (.STOPPED, h', sl)
          | some (.notBooked, h', sl, _) =>
            withSleeps sl (facLoopF cfg rest h' ctx' (i + 1))
        else facLoopF cfg rest h ctx' (i + 1)
      | .errSessionExpired reloginOk =>
        let ctx' : Ctx := { ctx with lastErr := some "SESSION_EXPIRED" }
        if reloginOk then
          facLoopF cfg rest { h with reloginCount := h.reloginCount + 1 } ctx' i
        else some (.LOGIN_FAILED, h, [])
      | .errRateLimited =>
        withSleeps [SleepEv.rateLimitPauseF]
          (facLoopF cfg rest h { ctx with lastErr := some "RATE_LIMITED" } (i + 1))
      | .errCsrfExpired =>
        facLoopF cfg rest h { ctx with lastErr := some "CSRF_EXPIRED" } (i + 1)
      | .errSocket msg =>
        facLoopF cfg rest h { ctx with lastErr := some msg } (i + 1)
      | .errOther msg =>
        facLoopF cfg rest h { ctx with lastErr := some msg } (i + 1)
    else some (.CONTINUE, finalizeHealth ctx h, [])

/-- `runCheckCycle()` of the fetch variant (`src/unnamed/part_000:482-616`). -/
def runCheckCycleF (running0 : Bool) (cfg : JobConfig) (h : Health)
    (evs : List FacEvent) : Option (Outcome × Health × List SleepEv) :=
  if !running0 then some (.STOPPED, h, [])
  else
    let h1 := { h with totalChecks := h.totalChecks + 1 }
    if cfg.facilityIds.length = 0 then some (.CONTINUE, h1, [])
    else facLoopF cfg evs h1 { anySuccess := false, socketFailCount := 0, lastErr := none } 0

/-! ## Run-loop fragments (`_runLoop`, `src/scheduler-engine.js:1216-1342`) -/

/-- Cooldown tiers on `IP_BLOCKED` (`src/scheduler-engine.js:1218-1223`),
in milliseconds. -/
def BLOCK_COOLDOWNS : List Nat :=
  [5 * 60 * 1000, 15 * 60 * 1000, 30 * 60 * 1000, 60 * 60 * 1000]

/-- `BLOCK_COOLDOWNS[Math.min(blockCount, BLOCK_COOLDOWNS.length - 1)]`
(`src/scheduler-engine.js:1246`). -/
def cooldownFor (blockCount : Nat) : Nat :=
  BLOCK_COOLDOWNS.getD (min blockCount (BLOCK_COOLDOWNS.length - 1)) 0

/-- The evolution of the run-loop's `blockCount` over a run: `blockCount`
starts at 0, is incremented exactly once per `IP_BLOCKED` cycle outcome
(`src/scheduler-engine.js:1245-1249`) and is never reset during a run.
Returns, in order, the cooldown slept after each `IP_BLOCKED` outcome. -/
def runLoopCooldowns : List Outcome → Nat → List Nat
  | [], _ => []
  | o :: rest, blockCount =>
    match o with
    | .IP_BLOCKED => cooldownFor blockCount :: runLoopCooldowns rest (blockCount + 1)
    | _ => runLoopCooldowns rest blockCount

/-- Number of `IP_BLOCKED` outcomes in a run. -/
def countIpBlocked (outcomes : List Outcome) : Nat :=
  outcomes.countP fun o => decide (o = .IP_BLOCKED)

/-- The wait before the next cycle when no multi-phase schedule is active
(`src/scheduler-engine.js:1333-1337`, identically
`src/unnamed/part_000:735-739`):
`interval = intervalSeconds*1000; jitter = interval*0.1*(Math.random()-0.5);
waitMs = Math.max(3000, interval + jitter)`.  `r` is the `Math.random()`
draw, a real number in `[0,1)`, modelled as a rational. -/
def nextWaitMs (intervalSeconds r : ℚ) : ℚ :=
  let interval := intervalSeconds * 1000
  let jitter := interval * (1/10) * (r - 1/2)
  max 3000 (interval + jitter)

/-- The jitter term alone. -/
def nextWaitJitterMs (intervalSeconds r : ℚ) : ℚ :=
  intervalSeconds * 1000 * (1/10) * (r - 1/2)

/-! ## Retry backoff (`browserFetch` / `fetchWithRetry`) -/

/-- Base retry delay of the Puppeteer transport
(`src/scheduler-engine.js:351-355`): socket-class failures
`min(5000 * 2^(attempt-1), 60000)`, others `min(1000 * 2^(attempt-1), 10000)`;
the actual delay adds `Math.random() * 2000` jitter. -/
def browserFetchBaseDelayMs (isSocketError : Bool) (attempt : Nat) : Nat :=
  if isSocketError then min (5000 * 2 ^ (attempt - 1)) 60000
  else min (1000 * 2 ^ (attempt - 1)) 10000

/-- Upper bound (exclusive) of the random jitter added by the Puppeteer
transport: `Math.random() * 2000`. -/
def browserFetchJitterMaxMs : Nat := 2000

/-- Expected delay of the Puppeteer transport, taking the expectation
of the uniform `[0, 2000)` jitter (1000 ms). -/
def browserFetchExpectedDelayMs (isSocketError : Bool) (attempt : Nat) : Nat :=
  browserFetchBaseDelayMs isSocketError attempt + 1000

/-- Base retry delay of the fetch-variant transport
(`src/unnamed/part_000:122`): `min(1000 * 2^(attempt-1), 10000)` for every
failure class — there is no socket-class tier. -/
def fetchWithRetryBaseDelayMs (attempt : Nat) : Nat :=
  min (1000 * 2 ^ (attempt - 1)) 10000

/-- Upper bound (exclusive) of the random jitter added by the fetch
variant: `Math.random() * 1000`. -/
def fetchWithRetryJitterMaxMs : Nat := 1000

/-! ## The sleep / cancelSleep mechanism (C2)

`src/scheduler-engine.js:199-211` (identically
`src/unnamed/part_000:131-144`):

```
sleep(ms) { return new Promise((resolve) => {
  const timer = setTimeout(resolve, ms); this._sleepTimer = timer; }); }
cancelSleep() { if (this._sleepTimer) {
  clearTimeout(this._sleepTimer); this._sleepTimer = null; } }
```

and `stop()` (`src/scheduler-engine.js:1347-1364`) which sets
`this.running = false` and calls `cancelSleep()` while `_runLoop` is
suspended at `await this.sleep(waitMs)`. -/

/-- JavaScript event-loop state of one `SchedulerInstance` whose
`_runLoop` is suspended at `await this.sleep(waitMs)`. -/
structure SleepLoopState where
  /-- `this.running` -/
  running : Bool
  /-- the `setTimeout` timer registered by `sleep()` is still pending -/
  timerActive : Bool
  /-- the promise returned by `sleep()` has been resolved -/
  promiseResolved : Bool
  /-- `_runLoop` has exited its `while` loop -/
  loopExited : Bool
deriving DecidableEq, Repr

/-- The loop is running and suspended on a fresh sleep. -/
def sleepingLoop : SleepLoopState :=
  { running := true, timerActive := true, promiseResolved := false, loopExited := false }

/-- Events the JavaScript event loop can deliver while `_runLoop` is
suspended on the sleep promise. -/
inductive EngineStep
  /-- the `setTimeout` timer fires: its callback is `resolve`, so the
  promise resolves (a cleared timer never fires) -/
  | timerFire
  /-- the microtask resuming `_runLoop` past the `await` runs; it can only
  run once the promise is resolved.  The loop then re-tests
  `this.running`: false exits the loop, true starts a new cycle that ends
  in a fresh `sleep()` -/
  | resumeLoop
deriving DecidableEq, Repr

/-- Small-step semantics of the event loop for the suspended sleep. -/
def stepSleep (s : SleepLoopState) : EngineStep → SleepLoopState
  | .timerFire =>
    if s.timerActive then { s with timerActive := false, promiseResolved := true } else s
  | .resumeLoop =>
    if s.promiseResolved && !s.loopExited then
      if s.running then { s with promiseResolved := false, timerActive := true }
      else { s with loopExited := true }
    else s

/-- `stop()` as it affects the suspended sleep
(`src/scheduler-engine.js:1347-1352`): `this.running = false`, then
`cancelSleep()` = `clearTimeout(timer)`, which discards the pending timer
without resolving the promise. -/
def stopCall (s : SleepLoopState) : SleepLoopState :=
  { s with running := false, timerActive := false }

/-! ## Concrete sample inputs used by witness and counterexample theorems -/

/-- A two-facility job config with auto-book off. -/
def cfgW : JobConfig :=
  { facilityIds := [101, 102], startDate := 0, endDate := 10, autoBook := false }

/-- A health record carrying two consecutive failures from earlier cycles. -/
def healthW : Health :=
  { totalChecks := 0, successfulChecks := 0, failedChecks := 0,
    consecutiveFailures := 2, reloginCount := 0, lastError := none }

/-- The cycle-local state at the top of the facility loop. -/
def ctxW : Ctx := { anySuccess := false, socketFailCount := 0, lastErr := none }

/-- A cycle-local state after some facility fetch succeeded. -/
def ctxSW : Ctx := { anySuccess := true, socketFailCount := 0, lastErr := none }

/-! # Theorems -/

/-! ## C4 — `filterDatesInRange` -/

theorem mem_filterDatesInRange (s e d : Nat) (l : List AvailDate) :
    d ∈ filterDatesInRange s e l ↔
      s ≤ d ∧ d ≤ e ∧ ∃ a ∈ l, a.business_day = true ∧ a.date = d := by
  unfold filterDatesInRange
  rw [List.mem_insertionSort, List.mem_filter, decide_eq_true_iff]
  constructor
  · rintro ⟨hmem, hs, he⟩
    obtain ⟨a, ha, rfl⟩ := List.mem_map.mp hmem
    obtain ⟨hal, hab⟩ := List.mem_filter.mp ha
    exact ⟨hs, he, a, hal, hab, rfl⟩
  · rintro ⟨hs, he, a, hal, hab, rfl⟩
    exact ⟨List.mem_map.mpr ⟨a, List.mem_filter.mpr ⟨hal, hab⟩, rfl⟩, hs, he⟩

theorem sorted_filterDatesInRange (s e : Nat) (l : List AvailDate) :
    List.Sorted (· ≤ ·) (filterDatesInRange s e l) :=
  List.sorted_insertionSort _ _

theorem filterDatesInRange_map_wrap (s e : Nat) (out : List Nat)
    (hsort : List.Sorted (· ≤ ·) out)
    (hrange : ∀ d ∈ out, s ≤ d ∧ d ≤ e) :
    filterDatesInRange s e
        (out.map fun d => { date := d, business_day := true }) = out := by
  unfold filterDatesInRange
  have h1 : (out.map fun d => ({ date := d, business_day := true } : AvailDate)).filter
      (fun d => d.business_day) = out.map fun d => { date := d, business_day := true } := by
    apply List.filter_eq_self.mpr
    intro a ha
    obtain ⟨d, _, rfl⟩ := List.mem_map.mp ha
    rfl
  rw [h1, List.map_map]
  have h2 : out.map ((fun d : AvailDate => d.date) ∘
      fun d : Nat => ({ date := d, business_day := true } : AvailDate)) = out := by
    exact List.map_id out
  rw [h2]
  have h3 : out.filter (fun d => decide (s ≤ d ∧ d ≤ e)) = out :=
    List.filter_eq_self.mpr fun a ha => decide_eq_true (hrange a ha)
  rw [h3]
  exact hsort.insertionSort_eq

theorem filterDatesInRange_idem (s e : Nat) (l : List AvailDate) :
    filterDatesInRange s e
        ((filterDatesInRange s e l).map fun d => { date := d, business_day := true }) =
      filterDatesInRange s e l :=
  filterDatesInRange_map_wrap s e _ (sorted_filterDatesInRange s e l) fun d hd => by
    have h := (mem_filterDatesInRange s e d l).mp hd
    exact ⟨h.1, h.2.1⟩

/-- C4: `filterDatesInRange` is idempotent (re-filtering its own output,
re-wrapped as the business-day entries it came from, returns it unchanged),
its output is sorted ascending, and a date is in the output exactly when it
lies in the inclusive `[startDate, endDate]` window and some business-day
entry carries it — so boundary dates are included and non-business-day
entries are always excluded. -/
theorem C4_filterDatesInRange_algebra :
    (∀ s e : Nat, ∀ l : List AvailDate,
      filterDatesInRange s e
          ((filterDatesInRange s e l).map fun d => { date := d, business_day := true }) =
        filterDatesInRange s e l) ∧
    (∀ s e : Nat, ∀ l : List AvailDate, List.Sorted (· ≤ ·) (filterDatesInRange s e l)) ∧
    (∀ s e d : Nat, ∀ l : List AvailDate,
      d ∈ filterDatesInRange s e l ↔
        s ≤ d ∧ d ≤ e ∧ ∃ a ∈ l, a.business_day = true ∧ a.date = d) :=
  ⟨filterDatesInRange_idem, sorted_filterDatesInRange, mem_filterDatesInRange⟩

/-! ## C10 / C1 — booking-result classification -/

theorem classifyBookingP_cases (html url : String) :
    classifyBookingP html url = { success := true, verified := true, reason := none } ∨
      ∃ r, classifyBookingP html url = { success := false, verified := false, reason := some r } := by
  unfold classifyBookingP
  cases hc : hasConfirmText (strLower html) || instructionsCheckP (strLower html) url <;>
    simp only [hc, Bool.false_eq_true, if_false, if_true]
  · cases hfr : failReasonP (strLower html) url <;> simp only [hfr]
    · exact Or.inr ⟨_, rfl⟩
    · exact Or.inr ⟨_, rfl⟩
  · exact Or.inl trivial

theorem bookAppointmentP_cases (e : PupBookEnv) :
    bookAppointmentP e = { success := true, verified := true, reason := none } ∨
      ∃ r, bookAppointmentP e = { success := false, verified := false, reason := some r } := by
  unfold bookAppointmentP
  split
  · exact Or.inr ⟨_, rfl⟩
  · split
    · exact Or.inr ⟨_, rfl⟩
    · exact classifyBookingP_cases e.html e.finalUrl

theorem bookAppointmentF_cases (resp : FetchBookResp) :
    bookAppointmentF resp = { success := true, verified := true, reason := none } ∨
      ∃ r, bookAppointmentF resp = { success := false, verified := false, reason := some r } := by
  unfold bookAppointmentF
  cases hc : hasConfirmText (strLower resp.html) <;>
    simp only [hc, Bool.false_eq_true, if_false, if_true]
  · cases hfr : failReasonF (strLower resp.html) resp.status resp.ok <;> simp only [hfr]
    · exact Or.inr ⟨_, rfl⟩
    · exact Or.inr ⟨_, rfl⟩
  · exact Or.inl trivial

theorem bookAppointmentP_verified_eq (e : PupBookEnv) :
    (bookAppointmentP e).verified =
      (!e.navSignIn && e.formLoaded &&
        (hasConfirmText (strLower e.html) || instructionsCheckP (strLower e.html) e.finalUrl)) := by
  unfold bookAppointmentP
  cases hn : e.navSignIn
  · cases hf : e.formLoaded
    · simp [hf]
    · simp only [hf, Bool.not_true, Bool.false_eq_true, if_false, Bool.not_false,
        Bool.true_and]
      unfold classifyBookingP
      cases hc : hasConfirmText (strLower e.html) || instructionsCheckP (strLower e.html) e.finalUrl
      · simp only [hc, Bool.false_eq_true, if_false]
        split <;> rfl
      · simp [hc]
  · simp [hn]

theorem bookAppointmentF_verified_eq (resp : FetchBookResp) :
    (bookAppointmentF resp).verified = hasConfirmText (strLower resp.html) := by
  unfold bookAppointmentF
  cases hc : hasConfirmText (strLower resp.html)
  · simp only [hc, Bool.false_eq_true, if_false]
    split <;> rfl
  · simp [hc]

/-- C10: every `BookingResult` either engine's `bookAppointment` returns
has `success` equal to `verified` — it is `{success := true, verified := true}`
or `{success := false, verified := false}` — and every failure carries a
reason string. -/
theorem C10_success_matches_verified :
    (∀ e : PupBookEnv,
      (bookAppointmentP e).success = (bookAppointmentP e).verified ∧
      ((bookAppointmentP e).success = true ∨ ((bookAppointmentP e).reason).isSome = true)) ∧
    (∀ resp : FetchBookResp,
      (bookAppointmentF resp).success = (bookAppointmentF resp).verified ∧
      ((bookAppointmentF resp).success = true ∨ ((bookAppointmentF resp).reason).isSome = true)) := by
  constructor
  · intro e
    rcases bookAppointmentP_cases e with h | ⟨r, h⟩ <;> rw [h] <;> simp
  · intro resp
    rcases bookAppointmentF_cases resp with h | ⟨r, h⟩ <;> rw [h] <;> simp

/-- C1 counterexample: in the Puppeteer engine a booking whose response
body contains none of the three confirmation substrings is still returned
as `verified = true` when the post-submit URL is the instructions page, so
"verified = true iff the body contains a confirmation substring" fails. -/
theorem C1_counterexample :
    (bookAppointmentP
        { navSignIn := false, formLoaded := true, html := "", finalUrl := "/instructions" }).verified
        = true ∧
      containsStr "" "successfully scheduled" = false ∧
      containsStr "" "successfully booked" = false ∧
      containsStr "" "your appointment has been scheduled" = false := by
  refine ⟨by decide, by decide, by decide, by decide⟩

/-- C1 (amended): in the fetch-variant engine, `verified = true` holds iff
the response body contains one of the three confirmation substrings; in
the Puppeteer engine the confirmation signal additionally accepts an
instructions-page URL or a body mentioning both "instructions" and "your
appointment"; in both engines every unconfirmed response yields
`success = false`, and `success` always equals `verified`. -/
theorem C1_booking_confirmation :
    (∀ resp : FetchBookResp,
      (bookAppointmentF resp).verified = hasConfirmText (strLower resp.html)) ∧
    (∀ e : PupBookEnv,
      (bookAppointmentP e).verified =
        (!e.navSignIn && e.formLoaded &&
          (hasConfirmText (strLower e.html) || instructionsCheckP (strLower e.html) e.finalUrl))) ∧
    (∀ e : PupBookEnv, (bookAppointmentP e).success = (bookAppointmentP e).verified) ∧
    (∀ resp : FetchBookResp, (bookAppointmentF resp).success = (bookAppointmentF resp).verified) := by
  refine ⟨bookAppointmentF_verified_eq, bookAppointmentP_verified_eq, ?_, ?_⟩
  · intro e
    rcases bookAppointmentP_cases e with h | ⟨r, h⟩ <;> rw [h]
  · intro resp
    rcases bookAppointmentF_cases resp with h | ⟨r, h⟩ <;> rw [h]

/-! ## C6 — retry backoff -/

theorem minTier_lt (m : Nat) (hm : 1 ≤ m) :
    min (1000 * m) 10000 < min (5000 * m) 60000 := by omega

theorem minTier_mono (c cap a : Nat) :
    min (c * 2 ^ (a - 1)) cap ≤ min (c * 2 ^ (a + 1 - 1)) cap :=
  min_le_min (Nat.mul_le_mul (le_refl c)
    (Nat.pow_le_pow_right (by norm_num) (by omega))) (le_refl cap)

/-- C6 counterexample: in the fetch variant (`fetchWithRetry`,
`src/unnamed/part_000:122`) a socket-class failure on attempt 1 waits from
a 1000 ms base (not the claimed 5000 ms) — the variant has no socket tier —
and its jitter is bounded by 1000 ms, not 2000 ms. -/
theorem C6_counterexample :
    fetchWithRetryBaseDelayMs 1 = 1000 ∧ ¬ fetchWithRetryBaseDelayMs 1 = 5000 ∧
    fetchWithRetryJitterMaxMs = 1000 ∧ ¬ fetchWithRetryJitterMaxMs = 2000 := by
  refine ⟨by decide, by decide, by decide, by decide⟩

/-- C6 (amended): the Puppeteer transport backs off as the claim states —
socket-class failures from a 5 s base doubling to a 60 s cap, others from
1 s to 10 s, jitter below 2 s, base delays monotone in the attempt number,
and the expected socket-class delay strictly above the non-socket one at
every attempt; the fetch variant applies the 1 s / 10 s schedule with
jitter below 1 s to every failure class. -/
theorem C6_backoff_policy :
    (browserFetchBaseDelayMs true 1 = 5000 ∧ browserFetchBaseDelayMs false 1 = 1000) ∧
    (∀ s : Bool, ∀ a : Nat,
      browserFetchBaseDelayMs s a ≤ browserFetchBaseDelayMs s (a + 1)) ∧
    (∀ a : Nat, browserFetchBaseDelayMs true a ≤ 60000 ∧
      browserFetchBaseDelayMs false a ≤ 10000) ∧
    (∀ a : Nat, browserFetchExpectedDelayMs false a < browserFetchExpectedDelayMs true a) ∧
    browserFetchJitterMaxMs = 2000 ∧
    (∀ a : Nat, fetchWithRetryBaseDelayMs a = browserFetchBaseDelayMs false a) ∧
    (∀ a : Nat, fetchWithRetryBaseDelayMs a ≤ fetchWithRetryBaseDelayMs (a + 1)) := by
  refine ⟨⟨by decide, by decide⟩, ?_, ?_, ?_, rfl, fun a => rfl, ?_⟩
  · intro s a
    cases s <;> simp only [browserFetchBaseDelayMs, if_true, if_false] <;>
      exact minTier_mono _ _ a
  · intro a
    exact ⟨min_le_right _ _, min_le_right _ _⟩
  · intro a
    have h := minTier_lt (2 ^ (a - 1)) (Nat.one_le_pow _ _ (by norm_num))
    simp only [browserFetchExpectedDelayMs, browserFetchBaseDelayMs]
    norm_num
  · intro a
    exact minTier_mono _ _ a

/-! ## C5 — IP-block cooldown tiers -/

theorem runLoopCooldowns_eq (outcomes : List Outcome) (bc : Nat) :
    runLoopCooldowns outcomes bc =
      (List.range (countIpBlocked outcomes)).map fun k => cooldownFor (bc + k) := by
  induction outcomes generalizing bc with
  | nil => simp [runLoopCooldowns, countIpBlocked]
  | cons o rest ih =>
    by_cases ho : o = Outcome.IP_BLOCKED
    · subst ho
      have hcount : countIpBlocked (Outcome.IP_BLOCKED :: rest) = countIpBlocked rest + 1 := by
        simp [countIpBlocked, List.countP_cons]
      rw [show runLoopCooldowns (Outcome.IP_BLOCKED :: rest) bc =
            cooldownFor bc :: runLoopCooldowns rest (bc + 1) from rfl,
          ih, hcount, List.range_succ_eq_map, List.map_cons, List.map_map]
      refine congrArg₂ _ (by norm_num) (List.map_congr_left fun k _ => ?_)
      simp only [Function.comp_apply]
      congr 1
      omega
    · have hcount : countIpBlocked (o :: rest) = countIpBlocked rest := by
        simp [countIpBlocked, List.countP_cons, ho]
      have hrc : runLoopCooldowns (o :: rest) bc = runLoopCooldowns rest bc := by
        cases o <;> simp_all [runLoopCooldowns]
      rw [hrc, hcount, ih]

/-- C5: over any run of the job loop, the cooldown slept after the n-th
`IP_BLOCKED` outcome (n from 0) is `BLOCK_COOLDOWNS[min n 3]`; in
particular a fifth consecutive block still waits exactly 60 minutes. -/
theorem C5_block_cooldown_tiers :
    (∀ outcomes : List Outcome,
      runLoopCooldowns outcomes 0 =
        (List.range (countIpBlocked outcomes)).map fun n => BLOCK_COOLDOWNS.getD (min n 3) 0) ∧
    cooldownFor 4 = 60 * 60 * 1000 ∧
    runLoopCooldowns [.IP_BLOCKED, .IP_BLOCKED, .IP_BLOCKED, .IP_BLOCKED, .IP_BLOCKED] 0 =
      [300000, 900000, 1800000, 3600000, 3600000] := by
  refine ⟨fun outcomes => ?_, by decide, by decide⟩
  rw [runLoopCooldowns_eq]
  exact List.map_congr_left fun n _ => by
    simp only [Nat.zero_add]
    rfl

/-! ## C9 — interval jitter -/

/-- C9: the next-cycle wait respects the 3-second floor for every draw,
but the jitter magnitude peaks at 5 % of the interval, not the documented
10 %: at `intervalSeconds = 30`, the extreme draws `r = 1` and `r = 0`
move the wait by only ±1500 ms, half of the 10 % the comment
`Wait for next cycle with ±10% jitter` (`src/scheduler-engine.js:1333`)
promises (3000 ms). -/
theorem C9_jitter_reaches_five_percent_only :
    nextWaitMs 30 1 = 31500 ∧ nextWaitMs 30 0 = 28500 ∧
    nextWaitMs 30 (1/2) = 30000 ∧
    nextWaitJitterMs 30 1 = 1500 ∧
    (1500 : ℚ) < 30 * 1000 * (1/10) ∧
    (∀ intervalSeconds r : ℚ, 3000 ≤ nextWaitMs intervalSeconds r) := by
  refine ⟨?_, ?_, ?_, ?_, by norm_num, fun s r => le_max_left _ _⟩ <;>
    norm_num [nextWaitMs, nextWaitJitterMs]

/-! ## C2 — stop() during a pending sleep -/

theorem stepSleep_stuck (s : SleepLoopState) (e : EngineStep)
    (h : s.timerActive = false ∧ s.promiseResolved = false ∧ s.loopExited = false) :
    (stepSleep s e).timerActive = false ∧ (stepSleep s e).promiseResolved = false ∧
      (stepSleep s e).loopExited = false := by
  obtain ⟨h1, h2, h3⟩ := h
  cases e <;> simp [stepSleep, h1, h2, h3]

theorem foldl_stepSleep_stuck (tr : List EngineStep) (s : SleepLoopState)
    (h : s.timerActive = false ∧ s.promiseResolved = false ∧ s.loopExited = false) :
    (tr.foldl stepSleep s).loopExited = false := by
  induction tr generalizing s with
  | nil => exact h.2.2
  | cons e rest ih => exact ih _ (stepSleep_stuck s e h)

/-- C2: once `stop()` runs while `_runLoop` is suspended on
`await this.sleep(...)`, no sequence of event-loop steps ever resumes the
loop — `cancelSleep` clears the timeout without resolving the promise, so
the loop never observes the cleared `running` flag and never exits; had
the promise been resolved, a single resumption step would exit the loop. -/
theorem C2_cancelled_sleep_never_wakes :
    (∀ tr : List EngineStep,
      (tr.foldl stepSleep (stopCall sleepingLoop)).loopExited = false) ∧
    (stopCall sleepingLoop).promiseResolved = false ∧
    (stepSleep { sleepingLoop with
        running := false, timerActive := false, promiseResolved := true }
      .resumeLoop).loopExited = true := by
  refine ⟨fun tr => foldl_stepSleep_stuck tr _ ⟨rfl, rfl, rfl⟩, rfl, rfl⟩

/-! ## C3 / C7 — per-facility error handling in `runCheckCycle` -/

theorem withSleeps_eq_some {sl : List SleepEv} {x : Option (Outcome × Health × List SleepEv)}
    {o : Outcome} {h : Health} {s : List SleepEv} :
    withSleeps sl x = some (o, h, s) ↔ ∃ s', x = some (o, h, s') ∧ s = sl ++ s' := by
  cases x with
  | none => simp [withSleeps]
  | some v =>
    obtain ⟨o', h', s'⟩ := v
    simp only [withSleeps, Option.some.injEq, Prod.mk.injEq]
    constructor
    · rintro ⟨ho, hh, hs⟩
      exact ⟨s', ⟨ho, hh, rfl⟩, hs.symm⟩
    · rintro ⟨s'', ⟨ho, hh, rfl⟩, rfl⟩
      exact ⟨ho, hh, rfl⟩

theorem withSleepsA_eq_some {sl : List SleepEv}
    {x : Option (DateRes × Health × List SleepEv × List BookEvent)}
    {r : DateRes} {h : Health} {s : List SleepEv} {evs : List BookEvent} :
    withSleepsA sl x = some (r, h, s, evs) ↔
      ∃ s', x = some (r, h, s', evs) ∧ s = sl ++ s' := by
  cases x with
  | none => simp [withSleepsA]
  | some v =>
    obtain ⟨r', h', s', evs'⟩ := v
    simp only [withSleepsA, Option.some.injEq, Prod.mk.injEq]
    constructor
    · rintro ⟨hr, hh, hs, he⟩
      exact ⟨s', ⟨hr, hh, rfl, he⟩, hs.symm⟩
    · rintro ⟨s'', ⟨hr, hh, rfl, he⟩, rfl⟩
      exact ⟨hr, hh, rfl, he⟩

/-- C3 (amended): a `RATE_LIMITED` failure at a facility makes the
Puppeteer engine sleep the 5-minute rate-limit pause and continue the
cycle with the next facility (the cycle is not aborted); the fetch
variant does the same but its pause is 60 seconds. -/
theorem C3_rate_limited_pause :
    ∀ (cfg : JobConfig) (h : Health) (ctx : Ctx) (i : Nat) (evs : List FacEvent),
      i < cfg.facilityIds.length →
      (facLoopP cfg (.errRateLimited :: evs) h ctx i =
        withSleeps (pausePre i ++ [SleepEv.rateLimitPause])
          (facLoopP cfg evs h { ctx with lastErr := some "RATE_LIMITED" } (i + 1))) ∧
      SleepEv.rateLimitPause.baseMs = 5 * 60 * 1000 ∧
      (facLoopF cfg (.errRateLimited :: evs) h ctx i =
        withSleeps [SleepEv.rateLimitPauseF]
          (facLoopF cfg evs h { ctx with lastErr := some "RATE_LIMITED" } (i + 1))) ∧
      SleepEv.rateLimitPauseF.baseMs = 60000 := by
  intro cfg h ctx i evs hi
  refine ⟨?_, rfl, ?_, rfl⟩
  · simp only [facLoopP, if_pos hi]
  · simp only [facLoopF, if_pos hi]

/-- C3 witness: the amended behaviour at a concrete two-facility config. -/
theorem C3_witness :
    (0 : Nat) < cfgW.facilityIds.length ∧
    ((facLoopP cfgW [.errRateLimited] healthW ctxW 0 =
        withSleeps (pausePre 0 ++ [SleepEv.rateLimitPause])
          (facLoopP cfgW [] healthW { ctxW with lastErr := some "RATE_LIMITED" } 1)) ∧
      SleepEv.rateLimitPause.baseMs = 5 * 60 * 1000 ∧
      (facLoopF cfgW [.errRateLimited] healthW ctxW 0 =
        withSleeps [SleepEv.rateLimitPauseF]
          (facLoopF cfgW [] healthW { ctxW with lastErr := some "RATE_LIMITED" } 1)) ∧
      SleepEv.rateLimitPauseF.baseMs = 60000) :=
  ⟨by decide, C3_rate_limited_pause cfgW healthW ctxW 0 [] (by decide)⟩

/-- C3 counterexample: in the fetch variant a rate-limited facility makes
the cycle sleep the 60000 ms pause — not 5 minutes — and then continue
with the next facility (outcome `CONTINUE`). -/
theorem C3_counterexample :
    runCheckCycleF true cfgW healthW [.errRateLimited, .ok [] []] =
      some (.CONTINUE,
        { totalChecks := 1, successfulChecks := 1, failedChecks := 0,
          consecutiveFailures := 0, reloginCount := 0, lastError := none },
        [SleepEv.rateLimitPauseF]) ∧
    SleepEv.rateLimitPauseF.baseMs = 60000 ∧
    ¬ SleepEv.rateLimitPauseF.baseMs = 5 * 60 * 1000 := by
  refine ⟨by decide, by decide, by decide⟩

/-- C7: a `SESSION_EXPIRED` failure triggers a re-login; on success the
same facility index is retried (the index is not advanced), and if the
re-login itself fails the cycle returns `LOGIN_FAILED` — in both engines. -/
theorem C7_session_expired_handling :
    ∀ (cfg : JobConfig) (h : Health) (ctx : Ctx) (i : Nat) (evs : List FacEvent),
      i < cfg.facilityIds.length →
      (facLoopP cfg (.errSessionExpired true :: evs) h ctx i =
        withSleeps (pausePre i)
          (facLoopP cfg evs { h with reloginCount := h.reloginCount + 1 }
            { ctx with lastErr := some "SESSION_EXPIRED" } i)) ∧
      (facLoopP cfg (.errSessionExpired false :: evs) h ctx i =
        some (.LOGIN_FAILED, h, pausePre i)) ∧
      (facLoopF cfg (.errSessionExpired true :: evs) h ctx i =
        facLoopF cfg evs { h with reloginCount := h.reloginCount + 1 }
          { ctx with lastErr := some "SESSION_EXPIRED" } i) ∧
      (facLoopF cfg (.errSessionExpired false :: evs) h ctx i =
        some (.LOGIN_FAILED, h, [])) := by
  intro cfg h ctx i evs hi
  refine ⟨?_, ?_, ?_, ?_⟩ <;> simp [facLoopP, facLoopF, if_pos hi]

/-- C7 witness: the re-login/retry behaviour at a concrete input. -/
theorem C7_witness :
    (0 : Nat) < cfgW.facilityIds.length ∧
    ((facLoopP cfgW [.errSessionExpired true] healthW ctxW 0 =
        withSleeps (pausePre 0)
          (facLoopP cfgW [] { healthW with reloginCount := healthW.reloginCount + 1 }
            { ctxW with lastErr := some "SESSION_EXPIRED" } 0)) ∧
      (facLoopP cfgW [.errSessionExpired false] healthW ctxW 0 =
        some (.LOGIN_FAILED, healthW, pausePre 0)) ∧
      (facLoopF cfgW [.errSessionExpired true] healthW ctxW 0 =
        facLoopF cfgW [] { healthW with reloginCount := healthW.reloginCount + 1 }
          { ctxW with lastErr := some "SESSION_EXPIRED" } 0) ∧
      (facLoopF cfgW [.errSessionExpired false] healthW ctxW 0 =
        some (.LOGIN_FAILED, healthW, []))) :=
  ⟨by decide, C7_session_expired_handling cfgW healthW ctxW 0 [] (by decide)⟩

/-! ## C8 — HealthStats accounting -/

theorem bookAttemptsGo_health :
    ∀ (evs : List BookEvent) (attempt : Nat) (h : Health) (r : DateRes) (h' : Health)
      (sl : List SleepEv) (evs' : List BookEvent),
      bookAttemptsGo evs attempt h = some (r, h', sl, evs') →
      h' = { h with reloginCount := h'.reloginCount } := by
  intro evs
  induction evs with
  | nil =>
    intro attempt h r h' sl evs' heq
    by_cases h3 : attempt > 3
    · simp only [bookAttemptsGo, if_pos h3, Option.some.injEq, Prod.mk.injEq] at heq
      obtain ⟨-, rfl, -⟩ := heq
      rfl
    · simp only [bookAttemptsGo, if_neg h3] at heq
      exact absurd heq (by simp)
  | cons ev rest ih =>
    intro attempt h r h' sl evs' heq
    by_cases h3 : attempt > 3
    · simp only [bookAttemptsGo, if_pos h3, Option.some.injEq, Prod.mk.injEq] at heq
      obtain ⟨-, rfl, -⟩ := heq
      rfl
    · simp only [bookAttemptsGo, if_neg h3] at heq
      cases ev with
      | stopHere =>
        dsimp only at heq
        simp only [Option.some.injEq, Prod.mk.injEq] at heq
        obtain ⟨-, rfl, -⟩ := heq
        rfl
      | noTimes =>
        dsimp only at heq
        simp only [Option.some.injEq, Prod.mk.injEq] at heq
        obtain ⟨-, rfl, -⟩ := heq
        rfl
      | timesThrew se ok =>
        dsimp only at heq
        rw [withSleepsA_eq_some] at heq
        obtain ⟨s', mid, -⟩ := heq
        cases se <;> cases ok <;>
          · have e1 := ih _ _ _ _ _ _ mid
            exact e1
      | bookThrew se ok =>
        dsimp only at heq
        rw [withSleepsA_eq_some] at heq
        obtain ⟨s', mid, -⟩ := heq
        cases se <;> cases ok <;>
          · have e1 := ih _ _ _ _ _ _ mid
            exact e1
      | result br ok =>
        dsimp only at heq
        by_cases hv : (br.success && br.verified) = true
        · rw [if_pos hv] at heq
          simp only [Option.some.injEq, Prod.mk.injEq] at heq
          obtain ⟨-, rfl, -⟩ := heq
          rfl
        · rw [if_neg hv, withSleepsA_eq_some] at heq
          obtain ⟨s', mid, -⟩ := heq
          by_cases hre : reasonMentionsSessionExpired br = true
          · rw [if_pos hre] at mid
            cases ok <;>
              · have e1 := ih _ _ _ _ _ _ mid
                exact e1
          · rw [if_neg hre] at mid
            exact ih _ _ _ _ _ _ mid

theorem bookDatesGo_health :
    ∀ (ds : List Nat) (h : Health) (evs : List BookEvent) (p : BookPhase) (h' : Health)
      (sl : List SleepEv) (evs' : List BookEvent),
      bookDatesGo ds h evs = some (p, h', sl, evs') →
      h' = { h with reloginCount := h'.reloginCount } := by
  intro ds
  induction ds with
  | nil =>
    intro h evs p h' sl evs' heq
    simp only [bookDatesGo, Option.some.injEq, Prod.mk.injEq] at heq
    obtain ⟨-, rfl, -⟩ := heq
    rfl
  | cons d ds ih =>
    intro h evs p h' sl evs' heq
    simp only [bookDatesGo] at heq
    cases hatt : bookAttemptsGo evs 1 h with
    | none =>
      rw [hatt] at heq
      exact absurd heq (by simp)
    | some v =>
      obtain ⟨r1, h1, s1, e1⟩ := v
      have hfields := bookAttemptsGo_health evs 1 h r1 h1 s1 e1 hatt
      rw [hatt] at heq
      cases r1 with
      | dBooked =>
        simp only [Option.some.injEq, Prod.mk.injEq] at heq
        obtain ⟨-, rfl, -⟩ := heq
        exact hfields
      | dStopped =>
        simp only [Option.some.injEq, Prod.mk.injEq] at heq
        obtain ⟨-, rfl, -⟩ := heq
        exact hfields
      | dateDone =>
        dsimp only at heq
        cases hds : bookDatesGo ds h1 e1 with
        | none =>
          rw [hds] at heq
          exact absurd heq (by simp)
        | some w =>
          obtain ⟨p2, h2, s2, e2⟩ := w
          rw [hds] at heq
          simp only [Option.some.injEq, Prod.mk.injEq] at heq
          obtain ⟨-, rfl, -⟩ := heq
          have h2f := ih h1 e1 p2 h2 s2 e2 hds
          rw [hfields] at h2f
          exact h2f

theorem facLoopP_health (cfg : JobConfig) :
    ∀ (evs : List FacEvent) (h : Health) (ctx : Ctx) (i : Nat) (o : Outcome) (h' : Health)
      (sl : List SleepEv),
      facLoopP cfg evs h ctx i = some (o, h', sl) →
      h'.successfulChecks + h'.failedChecks ≤ h.successfulChecks + h.failedChecks + 1 ∧
      h'.totalChecks = h.totalChecks := by
  intro evs
  induction evs with
  | nil =>
    intro h ctx i o h' sl heq
    by_cases hi : i < cfg.facilityIds.length
    · simp only [facLoopP, if_pos hi] at heq
      exact absurd heq (by simp)
    · simp only [facLoopP, if_neg hi, Option.some.injEq, Prod.mk.injEq] at heq
      obtain ⟨-, rfl, -⟩ := heq
      unfold finalizeHealth
      split <;> exact ⟨by dsimp only; omega, rfl⟩
  | cons ev rest ih =>
    intro h ctx i o h' sl heq
    by_cases hi : i < cfg.facilityIds.length
    case neg =>
      simp only [facLoopP, if_neg hi, Option.some.injEq, Prod.mk.injEq] at heq
      obtain ⟨-, rfl, -⟩ := heq
      unfold finalizeHealth
      split <;> exact ⟨by dsimp only; omega, rfl⟩
    case pos =>
    simp only [facLoopP, if_pos hi] at heq
    cases ev with
    | stopped =>
      dsimp only at heq
      simp only [Option.some.injEq, Prod.mk.injEq] at heq
      obtain ⟨-, rfl, -⟩ := heq
      omega
    | ok dates book =>
      dsimp only at heq
      by_cases hb : filterDatesInRange cfg.startDate cfg.endDate dates ≠ [] ∧
          cfg.autoBook = true
      · rw [if_pos hb] at heq
        cases hbd : bookDatesGo
            ((filterDatesInRange cfg.startDate cfg.endDate dates).take 3) h book with
        | none =>
          rw [hbd] at heq
          exact absurd heq (by simp)
        | some w =>
          obtain ⟨p1, h1, s1, e1⟩ := w
          have hf := bookDatesGo_health _ _ _ _ _ _ _ hbd
          rw [hbd] at heq
          cases p1 with
          | booked =>
            dsimp only at heq
            simp only [Option.some.injEq, Prod.mk.injEq] at heq
            obtain ⟨-, rfl, -⟩ := heq
            rw [hf]
            exact ⟨by dsimp only; omega, rfl⟩
          | stoppedB =>
            dsimp only at heq
            simp only [Option.some.injEq, Prod.mk.injEq] at heq
            obtain ⟨-, rfl, -⟩ := heq
            rw [hf]
            exact ⟨by dsimp only; omega, rfl⟩
          | notBooked =>
            dsimp only at heq
            rw [withSleeps_eq_some] at heq
            obtain ⟨s', mid, -⟩ := heq
            have e1 := ih _ _ _ _ _ _ mid
            rw [hf] at e1
            exact ⟨by have := e1.1; dsimp only at this; omega,
                   by have := e1.2; dsimp only at this; omega⟩
      · rw [if_neg hb] at heq
        rw [withSleeps_eq_some] at heq
        obtain ⟨s', mid, -⟩ := heq
        exact ih _ _ _ _ _ _ mid
    | errSocket msg =>
      dsimp only at heq
      by_cases hs : ctx.socketFailCount + 1 ≥ cfg.facilityIds.length
      · rw [if_pos hs] at heq
        simp only [Option.some.injEq, Prod.mk.injEq] at heq
        obtain ⟨-, rfl, -⟩ := heq
        exact ⟨by dsimp only; omega, rfl⟩
      · rw [if_neg hs] at heq
        rw [withSleeps_eq_some] at heq
        obtain ⟨s', mid, -⟩ := heq
        exact ih _ _ _ _ _ _ mid
    | errSessionExpired reloginOk =>
      dsimp only at heq
      cases reloginOk with
      | true =>
        rw [if_pos rfl] at heq
        rw [withSleeps_eq_some] at heq
        obtain ⟨s', mid, -⟩ := heq
        have e1 := ih _ _ _ _ _ _ mid
        exact ⟨by have := e1.1; dsimp only at this; omega,
               by have := e1.2; dsimp only at this; omega⟩
      | false =>
        rw [if_neg (by simp)] at heq
        simp only [Option.some.injEq, Prod.mk.injEq] at heq
        obtain ⟨-, rfl, -⟩ := heq
        omega
    | errRateLimited =>
      dsimp only at heq
      rw [withSleeps_eq_some] at heq
      obtain ⟨s', mid, -⟩ := heq
      exact ih _ _ _ _ _ _ mid
    | errCsrfExpired =>
      dsimp only at heq
      rw [withSleeps_eq_some] at heq
      obtain ⟨s', mid, -⟩ := heq
      exact ih _ _ _ _ _ _ mid
    | errOther msg =>
      dsimp only at heq
      rw [withSleeps_eq_some] at heq
      obtain ⟨s', mid, -⟩ := heq
      exact ih _ _ _ _ _ _ mid

theorem facLoopP_continue_reset (cfg : JobConfig) :
    ∀ (evs : List FacEvent) (h : Health) (ctx : Ctx) (i : Nat) (h' : Health)
      (sl : List SleepEv),
      ctx.anySuccess = true →
      facLoopP cfg evs h ctx i = some (.CONTINUE, h', sl) →
      h'.consecutiveFailures = 0 := by
  intro evs
  induction evs with
  | nil =>
    intro h ctx i h' sl ha heq
    by_cases hi : i < cfg.facilityIds.length
    · simp only [facLoopP, if_pos hi] at heq
      exact absurd heq (by simp)
    · simp only [facLoopP, if_neg hi, Option.some.injEq, Prod.mk.injEq] at heq
      obtain ⟨-, rfl, -⟩ := heq
      unfold finalizeHealth
      rw [if_pos ha]
  | cons ev rest ih =>
    intro h ctx i h' sl ha heq
    by_cases hi : i < cfg.facilityIds.length
    case neg =>
      simp only [facLoopP, if_neg hi, Option.some.injEq, Prod.mk.injEq] at heq
      obtain ⟨-, rfl, -⟩ := heq
      unfold finalizeHealth
      rw [if_pos ha]
    case pos =>
    simp only [facLoopP, if_pos hi] at heq
    cases ev with
    | stopped =>
      dsimp only at heq
      exact absurd heq (by simp)
    | ok dates book =>
      dsimp only at heq
      by_cases hb : filterDatesInRange cfg.startDate cfg.endDate dates ≠ [] ∧
          cfg.autoBook = true
      · rw [if_pos hb] at heq
        cases hbd : bookDatesGo
            ((filterDatesInRange cfg.startDate cfg.endDate dates).take 3) h book with
        | none =>
          rw [hbd] at heq
          exact absurd heq (by simp)
        | some w =>
          obtain ⟨p1, h1, s1, e1⟩ := w
          rw [hbd] at heq
          cases p1 with
          | booked =>
            dsimp only at heq
            exact absurd heq (by simp)
          | stoppedB =>
            dsimp only at heq
            exact absurd heq (by simp)
          | notBooked =>
            dsimp only at heq
            rw [withSleeps_eq_some] at heq
            obtain ⟨s', mid, -⟩ := heq
            exact ih _ _ _ _ _ rfl mid
      · rw [if_neg hb] at heq
        rw [withSleeps_eq_some] at heq
        obtain ⟨s', mid, -⟩ := heq
        exact ih _ _ _ _ _ rfl mid
    | errSocket msg =>
      dsimp only at heq
      by_cases hs : ctx.socketFailCount + 1 ≥ cfg.facilityIds.length
      · rw [if_pos hs] at heq
        exact absurd heq (by simp)
      · rw [if_neg hs] at heq
        rw [withSleeps_eq_some] at heq
        obtain ⟨s', mid, -⟩ := heq
        refine ih _ _ _ _ _ ?_ mid
        exact ha
    | errSessionExpired reloginOk =>
      dsimp only at heq
      cases reloginOk with
      | true =>
        rw [if_pos rfl] at heq
        rw [withSleeps_eq_some] at heq
        obtain ⟨s', mid, -⟩ := heq
        refine ih _ _ _ _ _ ?_ mid
        exact ha
      | false =>
        rw [if_neg (by simp)] at heq
        exact absurd heq (by simp)
    | errRateLimited =>
      dsimp only at heq
      rw [withSleeps_eq_some] at heq
      obtain ⟨s', mid, -⟩ := heq
      refine ih _ _ _ _ _ ?_ mid
      exact ha
    | errCsrfExpired =>
      dsimp only at heq
      rw [withSleeps_eq_some] at heq
      obtain ⟨s', mid, -⟩ := heq
      refine ih _ _ _ _ _ ?_ mid
      exact ha
    | errOther msg =>
      dsimp only at heq
      rw [withSleeps_eq_some] at heq
      obtain ⟨s', mid, -⟩ := heq
      refine ih _ _ _ _ _ ?_ mid
      exact ha

theorem facLoopP_ok_sets_anySuccess (cfg : JobConfig) (dates : List AvailDate)
    (book : List BookEvent) (evs : List FacEvent) (h : Health) (ctx : Ctx) (i : Nat)
    (hi : i < cfg.facilityIds.length)
    (hnb : filterDatesInRange cfg.startDate cfg.endDate dates = [] ∨ cfg.autoBook = false) :
    facLoopP cfg (.ok dates book :: evs) h ctx i =
      withSleeps (pausePre i)
        (facLoopP cfg evs h
          { anySuccess := true, socketFailCount := 0, lastErr := ctx.lastErr } (i + 1)) := by
  have hb : ¬(filterDatesInRange cfg.startDate cfg.endDate dates ≠ [] ∧
      cfg.autoBook = true) := by
    rcases hnb with h1 | h1 <;> simp [h1]
  simp only [facLoopP, if_pos hi]
  rw [if_neg hb]

theorem runCheckCycleP_invariant :
    ∀ (running0 : Bool) (cfg : JobConfig) (h : Health) (evs : List FacEvent)
      (o : Outcome) (h' : Health) (sl : List SleepEv),
      runCheckCycleP running0 cfg h evs = some (o, h', sl) →
      h.successfulChecks + h.failedChecks ≤ h.totalChecks →
      h'.successfulChecks + h'.failedChecks ≤ h'.totalChecks := by
  intro running0 cfg h evs o h' sl heq hinv
  unfold runCheckCycleP at heq
  cases running0 with
  | false =>
    simp only [Bool.not_false, if_pos, Option.some.injEq, Prod.mk.injEq] at heq
    obtain ⟨-, rfl, -⟩ := heq
    exact hinv
  | true =>
    simp only [Bool.not_true, Bool.false_eq_true, if_false] at heq
    by_cases hn : cfg.facilityIds.length = 0
    · rw [if_pos hn] at heq
      simp only [Option.some.injEq, Prod.mk.injEq] at heq
      obtain ⟨-, rfl, -⟩ := heq
      dsimp only
      omega
    · rw [if_neg hn] at heq
      have hb := facLoopP_health cfg evs _ _ _ _ _ _ heq
      have h1 := hb.1
      have h2 := hb.2
      dsimp only at h1 h2
      omega

/-- C8 (amended): after every check cycle
`successfulChecks + failedChecks ≤ totalChecks` is preserved; a cycle that
completes the facility loop and returns `CONTINUE` having seen at least
one successful open-days fetch ends with `consecutiveFailures = 0`; and a
successful fetch does switch the cycle into that any-success state.
Cycles that return early (`BOOKED`, `STOPPED`, `LOGIN_FAILED`,
`IP_BLOCKED`) do not perform the reset. -/
theorem C8_health_invariant :
    (∀ (running0 : Bool) (cfg : JobConfig) (h : Health) (evs : List FacEvent)
        (o : Outcome) (h' : Health) (sl : List SleepEv),
      runCheckCycleP running0 cfg h evs = some (o, h', sl) →
      h.successfulChecks + h.failedChecks ≤ h.totalChecks →
      h'.successfulChecks + h'.failedChecks ≤ h'.totalChecks) ∧
    (∀ (cfg : JobConfig) (evs : List FacEvent) (h : Health) (ctx : Ctx) (i : Nat)
        (h' : Health) (sl : List SleepEv),
      ctx.anySuccess = true →
      facLoopP cfg evs h ctx i = some (.CONTINUE, h', sl) →
      h'.consecutiveFailures = 0) ∧
    (∀ (cfg : JobConfig) (dates : List AvailDate) (book : List BookEvent)
        (evs : List FacEvent) (h : Health) (ctx : Ctx) (i : Nat),
      i < cfg.facilityIds.length →
      (filterDatesInRange cfg.startDate cfg.endDate dates = [] ∨ cfg.autoBook = false) →
      facLoopP cfg (.ok dates book :: evs) h ctx i =
        withSleeps (pausePre i)
          (facLoopP cfg evs h
            { anySuccess := true, socketFailCount := 0, lastErr := ctx.lastErr } (i + 1))) :=
  ⟨runCheckCycleP_invariant, facLoopP_continue_reset,
    fun cfg dates book evs h ctx i hi hnb =>
      facLoopP_ok_sets_anySuccess cfg dates book evs h ctx i hi hnb⟩

/-- C8 witness: the three amended statements at concrete inputs. -/
theorem C8_witness :
    (healthW.successfulChecks + healthW.failedChecks ≤ healthW.totalChecks) ∧
    ((finalizeHealth ctxSW healthW).consecutiveFailures = 0) ∧
    (facLoopP cfgW [FacEvent.ok [] []] healthW ctxW 0 =
      withSleeps (pausePre 0)
        (facLoopP cfgW [] healthW
          { anySuccess := true, socketFailCount := 0, lastErr := ctxW.lastErr } 1)) :=
  ⟨C8_health_invariant.1 false cfgW healthW [] .STOPPED healthW [] (by decide) (by decide),
   C8_health_invariant.2.1 cfgW [] healthW ctxSW 2 (finalizeHealth ctxSW healthW) []
     (by decide) (by decide),
   C8_health_invariant.2.2 cfgW [] [] [] healthW ctxW 0 (by decide) (Or.inr (by decide))⟩

/-- C8 counterexample: a cycle whose first facility's open-days fetch
succeeds but whose second facility fails with `SESSION_EXPIRED` and a
failed re-login returns `LOGIN_FAILED` without resetting
`consecutiveFailures` (it stays at 2), so "consecutiveFailures is reset to
0 by any cycle in which at least one facility's open-days fetch succeeded"
fails on the code. -/
theorem C8_counterexample :
    runCheckCycleP true cfgW healthW [.ok [] [], .errSessionExpired false] =
      some (.LOGIN_FAILED,
        { totalChecks := 1, successfulChecks := 0, failedChecks := 0,
          consecutiveFailures := 2, reloginCount := 0, lastError := none },
        [SleepEv.interFacilityPause]) ∧
    ¬ (2 : Nat) = 0 := by
  refine ⟨by decide, by decide⟩
